import Mathlib

/-
Shallow embedding of the protocol codec, device state machine and motion
sequencing logic of the robot-aux-control repository.

The repository consists of near-duplicate Python scripts driving linear-axis
motor controllers through a Modbus-TCP-shaped gateway protocol.  The
definitions below are transcribed from the Python sources; each definition's
doc comment names the file, function and lines it embeds.  Byte buffers are
modelled as List Nat (Python bytes, each element < 256); a mocked peer is a
function from the index of a statusword read (or of a sendCommand exchange)
to the value (or response buffer) the peer returns for it.  Transport is
assumed to deliver each request and each scripted response intact, which is
exactly the setting of the end-to-end mocked-axis scenarios being checked.
-/

/-- Drive states, one constructor per STATE constant of
src/enhanced_unit_test_v6.py lines 12-18 (same constants in src/diag2.py). -/
inductive DriveState where
  | notReady
  | switchOnDisabled
  | readyToSwitchOn
  | switchedOn
  | operationEnabled
  | fault
  | unknown
  deriving DecidableEq, Repr

/-- The decode_statusword classifier of src/enhanced_unit_test_v6.py lines
227-244 (identical in src/diag2.py lines 30-47): an if/elif chain over the
masked statusword, testing NotReadyToSwitchOn first and Fault last, with
Unknown as the fall-through. -/
def decode_statusword (s : Nat) : DriveState :=
  if s &&& 0x004F = 0x0000 then .notReady
  else if s &&& 0x004F = 0x0040 then .switchOnDisabled
  else if s &&& 0x006F = 0x0021 then .readyToSwitchOn
  else if s &&& 0x006F = 0x0023 then .switchedOn
  else if s &&& 0x006F = 0x0027 then .operationEnabled
  else if s &&& 0x004F = 0x0008 then .fault
  else .unknown

/-- Modelled from the spec: the classification rule of spec section 4.3,
which lists the same six mask equations but in the opposite priority order
(Fault first, NotReadyToSwitchOn last, first match wins).  Used only to
compare the source's test order against the spec's priority order. -/
def decode_statusword_spec (s : Nat) : DriveState :=
  if s &&& 0x004F = 0x0008 then .fault
  else if s &&& 0x006F = 0x0027 then .operationEnabled
  else if s &&& 0x006F = 0x0023 then .switchedOn
  else if s &&& 0x006F = 0x0021 then .readyToSwitchOn
  else if s &&& 0x004F = 0x0040 then .switchOnDisabled
  else if s &&& 0x004F = 0x0000 then .notReady
  else .unknown

/-- The six mask equations of the classifier, as a list of Booleans in the
source's test order (src/enhanced_unit_test_v6.py lines 232-243). -/
def sixMatches (s : Nat) : List Bool :=
  [s &&& 0x004F == 0x0000, s &&& 0x004F == 0x0040, s &&& 0x006F == 0x0021,
   s &&& 0x006F == 0x0023, s &&& 0x006F == 0x0027, s &&& 0x004F == 0x0008]

/-- Response handling of read_object in src/enhanced_unit_test_v6.py lines
526-535: if the response holds at least 19 + size bytes, the payload is
accumulated from offset 19 by value |= response[19+i] << (8*i) for i in
range(size); otherwise the function returns None.  A short response is thus
mapped to the very same None that stands for an absent value. -/
def read_object_decode (response : List Nat) (size : Nat) : Option Nat :=
  if 19 + size ≤ response.length then
    some ((List.range size).foldl (fun v i => v ||| (response.getD (19 + i) 0 <<< (8 * i))) 0)
  else
    none

/-- Response handling of read_statusword in src/diag.py lines 70-77: a
response of at least 21 bytes yields response[19] | (response[20] << 8);
anything shorter yields None. -/
def read_statusword_decode (response : List Nat) : Option Nat :=
  if 21 ≤ response.length then
    some (response.getD 19 0 ||| (response.getD 20 0 <<< 8))
  else
    none

/-- Modelled from the spec: the little-endian interpretation of a byte
sequence (spec sections 3 and 8, payload bytes little-endian), used as the
independent reference that read_object_decode is compared against. -/
def leValue (bytes : List Nat) : Nat :=
  bytes.foldr (fun b acc => b + 256 * acc) 0

/-- Response handling of write_object in src/enhanced_unit_test_v6.py lines
486-491: the write reports failure exactly when response[7] has bit 7 set,
and success otherwise; the exception code byte is only printed, never
returned. -/
def write_object_ack (response : List Nat) : Bool :=
  if response.getD 7 0 &&& 0x80 ≠ 0 then false else true

/-- Response handling of write_controlword in src/diag.py lines 83-119: the
response buffer is received and ignored, and the function returns True
unconditionally (False arises only from a transport exception). -/
def write_controlword_ack (_response : List Nat) : Bool :=
  true

/-- A standard-Modbus exception response: 9 bytes, function-code byte at
offset 7 is 0xAB (0x2B with bit 7 set), exception code 0x05 at offset 8.
This is the shape the controllers actually send when the gateway is
misconfigured, discussed at length in src/enhanced_unit_test_v6.py. -/
def exception_response : List Nat :=
  [0x00, 0x0F, 0x00, 0x00, 0x00, 0x03, 0x00, 0xAB, 0x05]

/-- A well-formed 21-byte gateway read response for the statusword whose
payload bytes at offsets 19 and 20 are 0x27 and 0x00, the literal fixture of
spec section 8. -/
def statusword_fixture : List Nat :=
  [0x00, 0x0F, 0x00, 0x00, 0x00, 0x0D, 0x00, 0x2B, 0x0D, 0x00, 0x00, 0x00,
   0x60, 0x41, 0x00, 0x00, 0x00, 0x00, 0x02, 0x27, 0x00]

/-- Events observed at the mocked transport of a single axis during
go_through_state_machine: a statusword read (object 0x6041) returning s, or
a controlword write (object 0x6040) of the value v. -/
inductive Ev where
  | read (s : Nat)
  | writeCW (v : Nat)
  deriving DecidableEq, Repr

/-- Result of go_through_state_machine: the Python return value, the value of
the internal state variable when the function returns, and the transport
events in order. -/
structure GtsmResult where
  ok : Bool
  state : DriveState
  events : List Ev
  deriving DecidableEq, Repr

/-- The bounded Not-Ready wait of go_through_state_machine
(src/enhanced_unit_test_v6.py lines 590-603): up to five further statusword
reads, leaving the loop as soon as one masks to Switch On Disabled.  Returns
whether Switch On Disabled was reached, the next read index, and the reads
performed.  The argument k numbers the next statusword read of the run. -/
def notReadyWait (peer : Nat → Nat) (k : Nat) : Nat → Bool × Nat × List Ev
  | 0 => (false, k, [])
  | n + 1 =>
    let s := peer k
    if s &&& 0x004F = 0x0040 then (true, k + 1, [Ev.read s])
    else
      let r := notReadyWait peer (k + 1) n
      (r.1, r.2.1, Ev.read s :: r.2.2)

/-- Block of go_through_state_machine from Switched On to Operation Enabled
plus the final return (src/enhanced_unit_test_v6.py lines 633-652): if the
state variable is Switched On, write controlword 0x000F, read the
statusword, and succeed exactly when it masks to 0x0027; the function then
returns True exactly when the state variable is Operation Enabled. -/
def gtsm_block3 (peer : Nat → Nat) (k : Nat) (st : DriveState) (evs : List Ev) : GtsmResult :=
  if st = .switchedOn then
    let s := peer k
    let evs2 := evs ++ [Ev.writeCW 0x000F, Ev.read s]
    if s &&& 0x006F = 0x0027 then ⟨true, .operationEnabled, evs2⟩
    else ⟨false, .switchedOn, evs2⟩
  else if st = .operationEnabled then ⟨true, st, evs⟩
  else ⟨false, st, evs⟩

/-- Block of go_through_state_machine from Ready To Switch On to Switched On
(src/enhanced_unit_test_v6.py lines 619-631): if the state variable is Ready
To Switch On, write controlword 0x0007, read the statusword, and continue
exactly when it masks to 0x0023; otherwise return False at once. -/
def gtsm_block2 (peer : Nat → Nat) (k : Nat) (st : DriveState) (evs : List Ev) : GtsmResult :=
  if st = .readyToSwitchOn then
    let s := peer k
    let evs2 := evs ++ [Ev.writeCW 0x0007, Ev.read s]
    if s &&& 0x006F = 0x0023 then gtsm_block3 peer (k + 1) .switchedOn evs2
    else ⟨false, .readyToSwitchOn, evs2⟩
  else gtsm_block3 peer k st evs

/-- Block of go_through_state_machine from Switch On Disabled to Ready To
Switch On (src/enhanced_unit_test_v6.py lines 605-617): if the state
variable is Switch On Disabled, write controlword 0x0006, read the
statusword, and continue exactly when it masks to 0x0021; otherwise return
False at once. -/
def gtsm_block1 (peer : Nat → Nat) (k : Nat) (st : DriveState) (evs : List Ev) : GtsmResult :=
  if st = .switchOnDisabled then
    let s := peer k
    let evs2 := evs ++ [Ev.writeCW 0x0006, Ev.read s]
    if s &&& 0x006F = 0x0021 then gtsm_block2 peer (k + 1) .readyToSwitchOn evs2
    else ⟨false, .switchOnDisabled, evs2⟩
  else gtsm_block2 peer k st evs

/-- The go_through_state_machine sequence of src/enhanced_unit_test_v6.py
lines 541-652 (the same function, minus prints, is in src/diag2.py lines
315-426), run against a mocked axis.  peer k is the statusword delivered by
the k-th statusword read; the mock always answers with a well-formed 21-byte
response, so the None paths of read_statusword never trigger.  The initial
read is classified by the inline mask chain of lines 560-571, which is the
decode_statusword chain verbatim; a Fault start issues a fault reset
(controlword 0x0080) and re-reads; a Not-Ready start waits through
notReadyWait; the DI7 warning of lines 553-557 only prints and is omitted. -/
def go_through_state_machine (peer : Nat → Nat) : GtsmResult :=
  let s0 := peer 0
  let st := decode_statusword s0
  let evs := [Ev.read s0]
  if st = .fault then
    let s1 := peer 1
    let evs2 := evs ++ [Ev.writeCW 0x0080, Ev.read s1]
    if s1 &&& 0x004F = 0x0040 then gtsm_block1 peer 2 .switchOnDisabled evs2
    else ⟨false, .fault, evs2⟩
  else if st = .notReady then
    let r := notReadyWait peer 1 5
    let evs2 := evs ++ r.2.2
    if r.1 then gtsm_block1 peer r.2.1 .switchOnDisabled evs2
    else ⟨false, .notReady, evs2⟩
  else gtsm_block1 peer 1 st evs

/-- The controlword values written during a run, in order. -/
def cwWritesOf : List Ev → List Nat
  | [] => []
  | Ev.writeCW v :: rest => v :: cwWritesOf rest
  | Ev.read _ :: rest => cwWritesOf rest

/-- The mocked peer of the end-to-end bring-up scenario: statusword reads
deliver 0x0040, then 0x0021, 0x0023, 0x0027 after the successive
controlword writes. -/
def bring_up_peer : Nat → Nat :=
  fun k => [0x0040, 0x0021, 0x0023, 0x0027].getD k 0x0027

/-- A mocked peer that starts in Switch On Disabled and then answers every
statusword read with 0x0021, never advancing past Ready To Switch On. -/
def ready_stalled_peer : Nat → Nat :=
  fun k => if k = 0 then 0x0040 else 0x0021

/-- Writes issued by move_relative of src/archive/yz-gantry-control_v9.py
lines 298-335, as (object index, value) pairs in order, with every
write_object acknowledged by the mocked peer: profile velocity (0x6081),
acceleration (0x6083), deceleration (0x6084), target position (0x607A),
then controlword ENABLE_OPERATION|RELATIVE|0x0010 (start bit set) and
controlword ENABLE_OPERATION|RELATIVE (start bit cleared). -/
def move_relative_writes (distance velocity acceleration deceleration : Nat) :
    List (Nat × Nat) :=
  [(0x6081, velocity), (0x6083, acceleration), (0x6084, deceleration),
   (0x607A, distance),
   (0x6040, 0x000F ||| 0x0040 ||| 0x0010),
   (0x6040, 0x000F ||| 0x0040)]

/-- The controlword values among a list of (object index, value) writes. -/
def cwValuesOf (writes : List (Nat × Nat)) : List Nat :=
  (writes.filter (fun w => w.1 == 0x6040)).map (fun w => w.2)

/-- The enableOperation telegram of src/archive/main.py line 209: a write of
controlword value 15 (bytes 19, 20 are 15, 0). -/
def enableOperation_array : List Nat :=
  [0, 0, 0, 0, 0, 15, 0, 43, 13, 1, 0, 0, 96, 64, 0, 0, 0, 0, 2, 15, 0]

/-- The statusword request telegram of src/archive/main.py line 187. -/
def status_array : List Nat :=
  [0, 0, 0, 0, 0, 13, 0, 43, 13, 0, 0, 0, 96, 65, 0, 0, 0, 0, 2]

/-- The digital-inputs request telegram of src/archive/main.py line 178. -/
def DInputs_array : List Nat :=
  [0, 0, 0, 0, 0, 13, 0, 43, 13, 0, 0, 0, 96, 253, 0, 0, 0, 0, 4]

/-- The telegrams sent by one pass of homing() in src/archive/main.py lines
304-346, in order: reset the start bit (enableOperation), the mode poll of
set_mode(6) (a read of object 0x6061, one iteration), the feed-constant,
homing-speed and homing-acceleration parameter writes, the start-homing
controlword write of value 31 (bytes 19, 20 are 31, 0), and one iteration of
the completion poll (statusword read, digital-inputs read). -/
def homing_packets : List (List Nat) :=
  [enableOperation_array,
   [0, 0, 0, 0, 0, 13, 0, 43, 13, 0, 0, 0, 96, 97, 0, 0, 0, 0, 1],
   [0, 0, 0, 0, 0, 17, 0, 43, 13, 1, 0, 0, 96, 146, 1, 0, 0, 0, 4, 24, 21, 0, 0],
   [0, 0, 0, 0, 0, 17, 0, 43, 13, 1, 0, 0, 96, 146, 2, 0, 0, 0, 4, 1, 0, 0, 0],
   [0, 0, 0, 0, 0, 17, 0, 43, 13, 1, 0, 0, 96, 153, 1, 0, 0, 0, 4, 112, 23, 0, 0],
   [0, 0, 0, 0, 0, 17, 0, 43, 13, 1, 0, 0, 96, 153, 2, 0, 0, 0, 4, 112, 23, 0, 0],
   [0, 0, 0, 0, 0, 17, 0, 43, 13, 1, 0, 0, 96, 154, 0, 0, 0, 0, 4, 160, 134, 1, 0],
   [0, 0, 0, 0, 0, 15, 0, 43, 13, 1, 0, 0, 96, 64, 0, 0, 0, 0, 2, 31, 0],
   status_array,
   DInputs_array]

/-- Whether a telegram is a controlword write: direction byte 9 is 1 (write)
and the object index bytes 12, 13 are 96, 64 (0x6040). -/
def isCwWrite (p : List Nat) : Bool :=
  p.getD 9 0 == 1 && p.getD 12 0 == 96 && p.getD 13 0 == 64

/-- The 16-bit little-endian value carried at bytes 19, 20 of a telegram. -/
def packetValue16 (p : List Nat) : Nat :=
  p.getD 19 0 + 256 * p.getD 20 0

/-- The controlword values written during one homing() pass of
src/archive/main.py, extracted from its telegram sequence. -/
def homing_cw_writes : List Nat :=
  (homing_packets.filter isCwWrite).map packetValue16

/-- Edge-triggered start discipline on a controlword write sequence: every
write with bit 4 set is immediately followed by the same value with bit 4
cleared (in particular no two consecutive writes both carry bit 4, and a
trailing write may not leave bit 4 set). -/
def edge_triggered : List Nat → Bool
  | [] => true
  | [x] => x &&& 0x10 == 0
  | x :: y :: rest =>
    if x &&& 0x10 == 0 then edge_triggered (y :: rest)
    else (y == x ^^^ 0x10) && edge_triggered (y :: rest)

/-- The two gantry axes of src/unit_test2.py. -/
inductive Axis where
  | y
  | z
  deriving DecidableEq, Repr

/-- Events observed at the two mocked transports during
test_both_axes_in_sync: an object write, a controlword write, or a
statusword read on one of the two axes. -/
inductive SyncEv where
  | writeObj (ax : Axis) (index value : Nat)
  | writeCW (ax : Axis) (v : Nat)
  | readSW (ax : Axis) (s : Nat)
  deriving DecidableEq, Repr

/-- One completion-wait loop of test_both_axes_in_sync (src/unit_test2.py
lines 256-263 and 280-287): up to a fixed number of iterations, each reading
the statusword of both axes and breaking exactly when both carry the
target-reached bit 0x0400.  Returns the next read index and the reads
performed. -/
def waitBoth (yPeer zPeer : Nat → Nat) (k : Nat) : Nat → Nat × List SyncEv
  | 0 => (k, [])
  | n + 1 =>
    let ys := yPeer k
    let zs := zPeer k
    let evs := [SyncEv.readSW .y ys, SyncEv.readSW .z zs]
    if (ys &&& 0x0400 != 0) && (zs &&& 0x0400 != 0) then (k + 1, evs)
    else
      let r := waitBoth yPeer zPeer (k + 1) n
      (r.1, evs ++ r.2)

/-- The transport event trace of test_both_axes_in_sync (src/unit_test2.py
lines 223-291) against two mocked axes, with every write acknowledged:
set both axes to Profile Position mode, write target positions, velocities
and accelerations, start both (controlword 0x001F), wait up to 20 polls for
both target-reached bits, reset both start bits (0x000F), write return
targets 0, start both again, wait up to 20 polls again, and reset both start
bits.  The function never reads faults and never issues a stop. -/
def test_both_axes_in_sync (yPeer zPeer : Nat → Nat) : List SyncEv :=
  let setup : List SyncEv :=
    [.writeObj .y 0x6060 1, .writeObj .z 0x6060 1,
     .writeObj .y 0x607A 1000, .writeObj .z 0x607A 1000,
     .writeObj .y 0x6081 1000, .writeObj .z 0x6081 1000,
     .writeObj .y 0x6083 2000, .writeObj .z 0x6083 2000,
     .writeCW .y 0x001F, .writeCW .z 0x001F]
  let w1 := waitBoth yPeer zPeer 0 20
  let mid : List SyncEv :=
    [.writeCW .y 0x000F, .writeCW .z 0x000F,
     .writeObj .y 0x607A 0, .writeObj .z 0x607A 0,
     .writeCW .y 0x001F, .writeCW .z 0x001F]
  let w2 := waitBoth yPeer zPeer w1.1 20
  let fin : List SyncEv := [.writeCW .y 0x000F, .writeCW .z 0x000F]
  setup ++ w1.2 ++ mid ++ w2.2 ++ fin

/-- The trace of test_both_axes_in_sync where axis Y reports target reached
(statusword 0x0427, Operation Enabled with bit 10) on every poll while axis
Z reports Fault (statusword 0x0008) on every poll. -/
def sync_fault_trace : List SyncEv :=
  test_both_axes_in_sync (fun _ => 0x0427) (fun _ => 0x0008)

/-- The accepted statusword responses of set_shdn in src/archive/main.py
lines 256-258: the loop exits only when a full 21-byte response telegram
equals one of these three. -/
def shdnOk1 : List Nat :=
  [0, 0, 0, 0, 0, 15, 0, 43, 13, 0, 0, 0, 96, 65, 0, 0, 0, 0, 2, 33, 6]

/-- Second accepted response of set_shdn (statusword bytes 33, 22). -/
def shdnOk2 : List Nat :=
  [0, 0, 0, 0, 0, 15, 0, 43, 13, 0, 0, 0, 96, 65, 0, 0, 0, 0, 2, 33, 22]

/-- Third accepted response of set_shdn (statusword bytes 33, 2). -/
def shdnOk3 : List Nat :=
  [0, 0, 0, 0, 0, 15, 0, 43, 13, 0, 0, 0, 96, 65, 0, 0, 0, 0, 2, 33, 2]

/-- The polling loop of set_shdn in src/archive/main.py lines 253-262:
while the statusword response differs from all three accepted telegrams,
sleep and poll again, with no iteration bound.  Python's short-circuit
evaluation sends up to three status requests per iteration; peer k is the
response to the k-th sendCommand of the loop.  The loop is modelled with
explicit fuel: some marks a loop exit (carrying the next exchange index),
none marks fuel running out.  The source has no fuel: a peer on which every
fuel value returns none keeps the source's while loop spinning forever. -/
def set_shdn_loop (peer : Nat → List Nat) (k : Nat) : Nat → Option Nat
  | 0 => none
  | fuel + 1 =>
    if peer k = shdnOk1 then some (k + 1)
    else if peer (k + 1) = shdnOk2 then some (k + 2)
    else if peer (k + 2) = shdnOk3 then some (k + 3)
    else set_shdn_loop peer (k + 3) fuel

/-- A peer that always answers with the Fault statusword telegram (bytes
19, 20 are 8, 0), which matches none of the three accepted responses. -/
def fault_responder : Nat → List Nat :=
  fun _ => [0, 0, 0, 0, 0, 15, 0, 43, 13, 0, 0, 0, 96, 65, 0, 0, 0, 0, 2, 8, 0]

/-- The bounded completion wait of test_simple_movement in src/unit_test2.py
lines 190-197: for at most the given number of iterations, read the
statusword and stop as soon as bit 0x0400 (target reached) is set; the
result tells whether the bit was seen within the bound.  The source runs it
with bound 10. -/
def wait_target_reached (peer : Nat → Nat) (k : Nat) : Nat → Bool
  | 0 => false
  | n + 1 =>
    if peer k &&& 0x0400 != 0 then true
    else wait_target_reached peer (k + 1) n

/-- Helper: the 0x4F mask factors through the 0x6F mask, since the bits of
0x4F are a subset of the bits of 0x6F. -/
theorem land_6F_4F (s : Nat) : (s &&& 0x006F) &&& 0x004F = s &&& 0x004F := by
  rw [Nat.land_assoc]
  congr 1

/-- Helper: the 0x6F mask is idempotent. -/
theorem land_6F_6F (s : Nat) : (s &&& 0x006F) &&& 0x006F = s &&& 0x006F := by
  rw [Nat.land_assoc]
  congr 1

/-- Helper: a statusword masking to 0x0027 under 0x006F masks to 0x0007
under 0x004F. -/
theorem land_4F_of_6F_27 (s : Nat) (h : s &&& 0x006F = 0x0027) :
    s &&& 0x004F = 0x0007 := by
  rw [← land_6F_4F s, h]
  decide

/-- Helper: a statusword classified Ready To Switch On masks to 0x0021. -/
theorem decode_ready_mask (s : Nat)
    (h : decode_statusword s = DriveState.readyToSwitchOn) :
    s &&& 0x006F = 0x0021 := by
  by_cases c1 : s &&& 0x004F = 0x0000
  · simp [decode_statusword, c1] at h
  by_cases c2 : s &&& 0x004F = 0x0040
  · simp [decode_statusword, c1, c2] at h
  by_cases c3 : s &&& 0x006F = 0x0021
  · exact c3
  by_cases c4 : s &&& 0x006F = 0x0023
  · simp [decode_statusword, c1, c2, c3, c4] at h
  by_cases c5 : s &&& 0x006F = 0x0027
  · simp [decode_statusword, c1, c2, c3, c4, c5] at h
  by_cases c6 : s &&& 0x004F = 0x0008
  · simp [decode_statusword, c1, c2, c3, c4, c5, c6] at h
  · simp [decode_statusword, c1, c2, c3, c4, c5, c6] at h

/-- Helper: leValue on the empty byte sequence. -/
theorem leValue_nil : leValue [] = 0 :=
  rfl

/-- Helper: leValue peels off the lowest byte. -/
theorem leValue_cons (c : Nat) (l : List Nat) : leValue (c :: l) = c + 256 * leValue l :=
  rfl

/-- Helper: appending a highest byte adds it at weight 256 to the length. -/
theorem leValue_append (l : List Nat) (b : Nat) :
    leValue (l ++ [b]) = leValue l + 256 ^ l.length * b := by
  induction l with
  | nil =>
    simp [leValue_cons, leValue_nil]
  | cons c t ih =>
    rw [List.cons_append, leValue_cons, ih, leValue_cons, List.length_cons]
    ring

/-- Helper: the little-endian value of a byte sequence is bounded by 256 to
its length. -/
theorem leValue_lt (l : List Nat) (hb : ∀ b ∈ l, b < 256) :
    leValue l < 256 ^ l.length := by
  induction l with
  | nil =>
    rw [leValue_nil]
    simp
  | cons c t ih =>
    have hc : c < 256 := hb c (List.mem_cons_self c t)
    have ht : leValue t < 256 ^ t.length := ih (fun b hbm => hb b (List.mem_cons_of_mem c hbm))
    have h2 : 256 * (leValue t + 1) ≤ 256 * 256 ^ t.length := Nat.mul_le_mul_left 256 ht
    rw [leValue_cons, List.length_cons, pow_succ']
    omega

/-- Helper: the or-and-shift accumulation loop of read_object equals the
little-endian interpretation of the bytes it visits, provided the buffer is
long enough and holds genuine bytes. -/
theorem read_fold_eq_leValue (resp : List Nat) (hb : ∀ b ∈ resp, b < 256) :
    ∀ size : Nat, 19 + size ≤ resp.length →
      (List.range size).foldl (fun v i => v ||| (resp.getD (19 + i) 0 <<< (8 * i))) 0
        = leValue ((resp.drop 19).take size) := by
  intro size
  induction size with
  | zero =>
    intro _
    simp [leValue_nil]
  | succ n ih =>
    intro hl
    have hl2 : 19 + n ≤ resp.length := by omega
    have hidx : 19 + n < resp.length := by omega
    rw [List.range_succ, List.foldl_append, ih hl2]
    simp only [List.foldl_cons, List.foldl_nil]
    have hbyte_eq : (resp.drop 19)[n]? = some (resp.getD (19 + n) 0) := by
      rw [List.getElem?_drop, List.getElem?_eq_getElem hidx, List.getD_eq_getElem resp 0 hidx]
    have htake : (resp.drop 19).take (n + 1)
        = (resp.drop 19).take n ++ [resp.getD (19 + n) 0] := by
      rw [List.take_succ, hbyte_eq]
      rfl
    have hlen : ((resp.drop 19).take n).length = n := by
      rw [List.length_take, List.length_drop]
      omega
    have hA : leValue ((resp.drop 19).take n) < 2 ^ (8 * n) := by
      have h1 := leValue_lt ((resp.drop 19).take n)
        (fun b hbm => hb b (List.mem_of_mem_drop (List.mem_of_mem_take hbm)))
      rw [hlen] at h1
      calc leValue ((resp.drop 19).take n) < 256 ^ n := h1
        _ = 2 ^ (8 * n) := by rw [pow_mul]; norm_num
    rw [htake, leValue_append, hlen, Nat.shiftLeft_eq, Nat.lor_comm,
      Nat.mul_comm (resp.getD (19 + n) 0) (2 ^ (8 * n)),
      ← Nat.mul_add_lt_is_or hA (resp.getD (19 + n) 0)]
    have hp : (2 : Nat) ^ (8 * n) = 256 ^ n := by rw [pow_mul]; norm_num
    rw [hp]
    exact Nat.add_comm _ _

/-- C1: in the source, a read response shorter than 19 + size bytes never
yields a payload value, but instead of a ShortResponse error carrying the
buffer length it yields None, the very value that also stands for an absent
value; the concrete 9-byte exception response evaluates to None under both
read_object and read_statusword, indistinguishable from any other failure. -/
theorem claim_C1_short_response_conflated :
    (∀ (resp : List Nat) (size : Nat), resp.length < 19 + size →
      read_object_decode resp size = none) ∧
    read_object_decode exception_response 2 = none ∧
    read_statusword_decode exception_response = none := by
  refine ⟨?_, by decide, by decide⟩
  intro resp size h
  unfold read_object_decode
  rw [if_neg (by omega)]

/-- Witness for C1 at the concrete 9-byte buffer. -/
theorem claim_C1_witness :
    exception_response.length < 19 + 2 ∧ read_object_decode exception_response 2 = none :=
  ⟨by decide, claim_C1_short_response_conflated.1 exception_response 2 (by decide)⟩

/-- C2: the end-to-end bring-up scenario: a mocked axis delivering
statuswords 0x0040, 0x0021, 0x0023, 0x0027 drives go_through_state_machine
to return True with final state Operation Enabled, through exactly the
controlword writes 0x0006, 0x0007, 0x000F; the success check masks with
0x006F, so 0x0027 alone, with bits 9 and 10 clear, counts as success. -/
theorem claim_C2_bring_up_end_to_end :
    go_through_state_machine bring_up_peer =
      ⟨true, .operationEnabled,
       [Ev.read 0x0040, Ev.writeCW 0x0006, Ev.read 0x0021, Ev.writeCW 0x0007,
        Ev.read 0x0023, Ev.writeCW 0x000F, Ev.read 0x0027]⟩ ∧
    0x0027 &&& 0x006F = 0x0027 ∧ 0x0027 &&& 0x0600 = 0 ∧
    decode_statusword 0x0027 = .operationEnabled := by
  decide

/-- C3: the classifier is total on statuswords and its fixed test order
gives: 0x0008 is Fault, 0x0040 is Switch On Disabled, 0x0000 is Not Ready;
every statusword masking to 0x0027 under 0x006F is Operation Enabled; and
every statusword matching none of the six mask equations is Unknown. -/
theorem claim_C3_classification_total_and_priority :
    decode_statusword 0x0008 = .fault ∧
    decode_statusword 0x0040 = .switchOnDisabled ∧
    decode_statusword 0x0000 = .notReady ∧
    (∀ s : Nat, s &&& 0x006F = 0x0027 → decode_statusword s = .operationEnabled) ∧
    (∀ s : Nat, s &&& 0x004F ≠ 0x0000 → s &&& 0x004F ≠ 0x0040 →
      s &&& 0x006F ≠ 0x0021 → s &&& 0x006F ≠ 0x0023 → s &&& 0x006F ≠ 0x0027 →
      s &&& 0x004F ≠ 0x0008 → decode_statusword s = .unknown) := by
  refine ⟨by decide, by decide, by decide, ?_, ?_⟩
  · intro s h
    have h4 := land_4F_of_6F_27 s h
    simp [decode_statusword, h, h4]
  · intro s h1 h2 h3 h4 h5 h6
    simp [decode_statusword, h1, h2, h3, h4, h5, h6]

/-- Witness for C3: statusword 0x0627 masks to 0x0027 and classifies as
Operation Enabled, and statusword 0x0001 matches no equation and is
Unknown. -/
theorem claim_C3_witness :
    decode_statusword 0x0627 = .operationEnabled ∧ decode_statusword 0x0001 = .unknown :=
  ⟨claim_C3_classification_total_and_priority.2.2.2.1 0x0627 (by decide),
   claim_C3_classification_total_and_priority.2.2.2.2 0x0001 (by decide) (by decide)
     (by decide) (by decide) (by decide) (by decide)⟩

/-- C4: from Switch On Disabled the bring-up issues exactly the controlword
writes 0x0006, 0x0007, 0x000F in that order, with a statusword read and
state re-check between consecutive writes (visible in the full event
trace); and against any peer that starts in Switch On Disabled and then
never classifies past Ready To Switch On, the bring-up returns its failure
result after its single bounded re-check of the stalled transition, the
source's rendering of the StateTransitionTimeout outcome. -/
theorem claim_C4_bring_up_writes_and_timeout :
    cwWritesOf (go_through_state_machine bring_up_peer).events =
      [0x0006, 0x0007, 0x000F] ∧
    (go_through_state_machine bring_up_peer).events =
      [Ev.read 0x0040, Ev.writeCW 0x0006, Ev.read 0x0021, Ev.writeCW 0x0007,
       Ev.read 0x0023, Ev.writeCW 0x000F, Ev.read 0x0027] ∧
    ∀ peer : Nat → Nat, decode_statusword (peer 0) = .switchOnDisabled →
      (∀ n, 1 ≤ n → decode_statusword (peer n) = .readyToSwitchOn) →
      (go_through_state_machine peer).ok = false := by
  refine ⟨by decide, by decide, ?_⟩
  intro peer h0 hrest
  have h1 : peer 1 &&& 0x006F = 0x0021 := decode_ready_mask _ (hrest 1 (by omega))
  have h2 : peer 2 &&& 0x006F = 0x0021 := decode_ready_mask _ (hrest 2 (by omega))
  simp [go_through_state_machine, gtsm_block1, gtsm_block2, h0, h1, h2]

/-- Witness for C4 on the concrete stalled peer. -/
theorem claim_C4_witness : (go_through_state_machine ready_stalled_peer).ok = false :=
  claim_C4_bring_up_writes_and_timeout.2.2 ready_stalled_peer (by decide)
    (by
      intro n hn
      have hne : n ≠ 0 := by omega
      simp only [ready_stalled_peer, if_neg hne]
      decide)

/-- C5: on the concrete exception response, whose function-code byte has bit
7 set, the write_object of enhanced_unit_test_v6 reports failure but
without the exception code, while the write_controlword of diag.py reports
success outright, so a write can report success on an exception response. -/
theorem claim_C5_exception_write_reports_success :
    exception_response.getD 7 0 &&& 0x80 ≠ 0 ∧
    write_object_ack exception_response = false ∧
    write_controlword_ack exception_response = true := by
  decide

/-- C6: for every sufficiently long response the read decoder extracts the
payload byte-exactly from offset 19 for size bytes, little-endian; the
fixture with payload bytes 0x27, 0x00 decodes to 0x0027 under both read
decoders, and 0x0027 classifies as Operation Enabled. -/
theorem claim_C6_payload_extraction :
    (∀ (resp : List Nat) (size : Nat), 19 + size ≤ resp.length →
      (∀ b ∈ resp, b < 256) →
      read_object_decode resp size = some (leValue ((resp.drop 19).take size))) ∧
    read_object_decode statusword_fixture 2 = some 0x0027 ∧
    read_statusword_decode statusword_fixture = some 0x0027 ∧
    decode_statusword 0x0027 = .operationEnabled := by
  refine ⟨?_, by decide, by decide, by decide⟩
  intro resp size hl hb
  unfold read_object_decode
  rw [if_pos hl, read_fold_eq_leValue resp hb size hl]

/-- Witness for C6 at the statusword fixture. -/
theorem claim_C6_witness :
    19 + 2 ≤ statusword_fixture.length ∧
    read_object_decode statusword_fixture 2 =
      some (leValue ((statusword_fixture.drop 19).take 2)) :=
  ⟨by decide, claim_C6_payload_extraction.1 statusword_fixture 2 (by decide) (by decide)⟩

/-- C7: the move_relative of yz-gantry-control_v9 does pulse the start bit
as a rising edge (bit-4 write immediately followed by the same value with
bit 4 cleared), but the homing of archive/main.py writes controlwords 15
then 31 and ends its pass with the start bit still set, never following the
bit-4 write with a clearing write: its start is level-triggered, violating
the edge-trigger discipline. -/
theorem claim_C7_start_bit_edge :
    (∀ d v a dc : Nat,
      edge_triggered (cwValuesOf (move_relative_writes d v a dc)) = true) ∧
    homing_cw_writes = [0x000F, 0x001F] ∧
    edge_triggered homing_cw_writes = false := by
  refine ⟨?_, by decide, by decide⟩
  intro d v a dc
  rfl

/-- C8: against mocked axes where Y reports target reached (0x0427) on every
poll and Z reports Fault (0x0008) on every poll, test_both_axes_in_sync
polls each completion loop to exhaustion (40 Z reads in all, since the AND
completion never holds), and after Z has reported Fault it still issues a
fresh start command 0x001F to Z; no stop of any kind is triggered by the
fault. -/
theorem claim_C8_fault_not_aborted :
    decode_statusword 0x0008 = .fault ∧
    (sync_fault_trace.filter (fun e => e == SyncEv.readSW .z 0x0008)).length = 40 ∧
    (sync_fault_trace.filter (fun e => e == SyncEv.readSW .y 0x0427)).length = 40 ∧
    (sync_fault_trace.dropWhile (fun e => !(e == SyncEv.readSW .z 0x0008))).contains
      (SyncEv.writeCW .z 0x001F) = true := by
  decide

/-- C9: the set_shdn polling loop of archive/main.py has no iteration bound:
against a peer that always answers with the Fault statusword telegram, the
loop condition never becomes false, so for every fuel value the fuelled
model is still spinning (it never hits a loop exit for any finite number of
iterations); by contrast the completion wait of unit_test2.py is bounded to
10 polls and terminates with failure on the same stalled peer. -/
theorem claim_C9_unbounded_poll_loop :
    (∀ fuel k : Nat, set_shdn_loop fault_responder k fuel = none) ∧
    wait_target_reached (fun _ => 0x0008) 0 10 = false := by
  refine ⟨?_, by decide⟩
  intro fuel
  induction fuel with
  | zero =>
    intro k
    rfl
  | succ n ih =>
    intro k
    simp only [set_shdn_loop, fault_responder]
    rw [if_neg (by decide), if_neg (by decide), if_neg (by decide)]
    exact ih (k + 3)

/-- C10: on every 16-bit statusword at most one of the six classification
mask equations holds, so the source's test order (Not Ready first, Fault
last) classifies every statusword exactly as the spec's priority order
(Fault first).  Both masks factor through the low seven bits, so the check
reduces to the 128 masked values. -/
theorem claim_C10_mask_exclusivity_refinement :
    ∀ s : Nat, s < 65536 →
      (sixMatches s).count true ≤ 1 ∧ decode_statusword s = decode_statusword_spec s := by
  intro s _
  have key : ∀ u : Nat, u < 128 →
      (sixMatches u).count true ≤ 1 ∧ decode_statusword u = decode_statusword_spec u := by
    decide
  obtain ⟨u, hu, e1, e2⟩ :
      ∃ u, u < 128 ∧ s &&& 0x004F = u &&& 0x004F ∧ s &&& 0x006F = u &&& 0x006F :=
    ⟨s &&& 0x006F, lt_of_le_of_lt Nat.and_le_right (by norm_num),
     (land_6F_4F s).symm, (land_6F_6F s).symm⟩
  have h := key u hu
  simp only [sixMatches, decode_statusword, decode_statusword_spec] at h ⊢
  rw [e1, e2]
  exact h

/-- Witness for C10 at statusword 0x0027. -/
theorem claim_C10_witness :
    (sixMatches 0x0027).count true ≤ 1 ∧
    decode_statusword 0x0027 = decode_statusword_spec 0x0027 :=
  claim_C10_mask_exclusivity_refinement 0x0027 (by decide)
